import Mathlib

/-!
Verification development for the ParametricMap assembly pipeline of
src/highdicom/pm/sop.py (class ParametricMap).

The Python source is shallowly embedded below.  Numeric arrays are modelled
as a dtype descriptor, a shape list, and a flat row-major list of integer
sample values (for floating dtypes the list entries stand for the raw bit
patterns, which the native serializer writes out unchanged; no claim inspects
floating-point byte content).  Machine integer casts are modelled with
explicit reduction modulo 2 ^ 16.  External collaborators that are not part
of the two source files (the geometry provider of
DimensionIndexSequence.get_index_values / get_plane_positions_of_*, the frame
codec highdicom.frame.encode_frame, and pydicom.encaps.encapsulate) enter the
build as function parameters, exactly at the call sites the source hands
data to them.
-/

deriving instance DecidableEq for Except

namespace HdPm

/-- Mapping models one RealWorldValueMapping item as an abstract identifier;
the pipeline only moves these around and never looks inside them. -/
abbrev Mapping := Nat

/-- PlanePos models one PlanePositionSequence item as an abstract identifier;
the pipeline only selects and stores them, never looks inside them. -/
abbrev PlanePos := Nat

/-- DKind mirrors numpy dtype.kind as used by the source: signed is kind i,
unsigned is kind u, float is kind f, and nonNumeric stands for every other
kind character (b, c, O, S, U, ...). -/
inductive DKind where
  | signed
  | unsigned
  | float
  | nonNumeric
deriving DecidableEq

/-- DType mirrors a numpy dtype as the pair of its kind character and its
itemsize in bytes (dtype.kind, dtype.itemsize); dtype names such as float32
correspond to kind float with itemsize 4. -/
structure DType where
  kind : DKind
  itemsize : Nat
deriving DecidableEq

def DType.int8 : DType := ⟨.signed, 1⟩

def DType.int16 : DType := ⟨.signed, 2⟩

def DType.uint8 : DType := ⟨.unsigned, 1⟩

def DType.uint16 : DType := ⟨.unsigned, 2⟩

def DType.float32 : DType := ⟨.float, 4⟩

def DType.float64 : DType := ⟨.float, 8⟩

/-- PixelArray mirrors the numpy pixel_array argument: dtype, shape, and the
flat row-major (C order) element list. -/
structure PixelArray where
  dtype : DType
  shape : List Nat
  data : List Int

/-- TransferSyntaxUid enumerates the transfer syntax UIDs the source cares
about; otherUid stands for any UID outside the four named ones. -/
inductive TransferSyntaxUid where
  | implicitVRLittleEndian
  | explicitVRLittleEndian
  | jpeg2000Lossless
  | rleLossless
  | otherUid
deriving DecidableEq

/-- isEncapsulated mirrors pydicom TransferSyntaxUID.is_encapsulated: the two
lossless compressed syntaxes are encapsulated, the two little-endian native
syntaxes are not (otherUid never reaches encoding, it is rejected earlier). -/
def TransferSyntaxUid.isEncapsulated : TransferSyntaxUid → Bool
  | .jpeg2000Lossless => true
  | .rleLossless => true
  | _ => false

/-- MappingArg mirrors the real_world_value_mappings argument, which is either
a flat sequence of RealWorldValueMapping items or a nested sequence of
sequences (spec section 9 makes this flat/nested split an explicit variant). -/
inductive MappingArg where
  | flat (ms : List Mapping)
  | nested (mss : List (List Mapping))
deriving DecidableEq

/-- SourceImage models the per-image attributes the embedded part of
ParametricMap.__init__ reads from a source dataset.  Identifiers are
abstract naturals.  numberOfFrames is some value exactly when the dataset
has a NumberOfFrames attribute (hasattr check at line 229). -/
structure SourceImage where
  studyInstanceUID : Nat
  seriesInstanceUID : Nat
  rows : Nat
  columns : Nat
  frameOfReferenceUID : Nat
  numberOfFrames : Option Nat
deriving DecidableEq

/-- BuildError gives one abstract name to each distinct validation failure
site of the embedded source (the Python code raises ValueError or TypeError
with a message at each of these places; the mapping shape checks at lines
389-397 and 412-420 also fail on malformed nested input, see
processMappings). -/
inductive BuildError where
  | noSourceImages
  | inconsistentSourceImages
  | multipleMultiframeSources
  | unsupportedTransferSyntaxUid
  | invalidWindow
  | mappingShapeMismatch
  | invalidArrayRank
  | mappingCountMismatch
  | planeCountMismatch
  | unsupportedPixelDataType
deriving DecidableEq

/-- PixelDataType mirrors the helper enum _PixelDataType of the source. -/
inductive PixelDataType where
  | SHORT
  | USHORT
  | SINGLE
  | DOUBLE
deriving DecidableEq

/-- pixelDataAttrFor mirrors the _pixel_data_type_map dict built at lines
270-275: the DICOM attribute name that receives the pixel buffer. -/
def pixelDataAttrFor : PixelDataType → String
  | .SHORT => "PixelData"
  | .USHORT => "PixelData"
  | .SINGLE => "FloatPixelData"
  | .DOUBLE => "DoubleFloatPixelData"

/-- BitsAttrs collects the bit-depth attributes set at lines 535-544; the
fields that the float branches leave unset are modelled as none. -/
structure BitsAttrs where
  bitsAllocated : Nat
  bitsStored : Option Nat
  highBit : Option Nat
  pixelRepresentation : Option Nat
deriving DecidableEq, Inhabited

/-- SharedGroup models the shared functional group item sffg_item: the value
mapping slot (RealWorldValueMappingSequence, set only in the 2D/3D branch at
line 388), the rescale transform (lines 501-514), and the window parameters
(lines 517-521).  RescaleIntercept is exact in the source (2 ** 16 / 2 is the
float 32768.0), so an integer field is faithful. -/
structure SharedGroup where
  realWorldValueMapping : Option (List Mapping)
  rescaleIntercept : Int
  rescaleSlope : Int
  windowCenter : ℚ
  windowWidth : ℚ
deriving DecidableEq, Inhabited

/-- FrameGroup models one item of PerFrameFunctionalGroupsSequence built at
lines 607-632: the referenced plane position (stored under
PlanePositionSequence or PlanePositionSlideSequence depending on the
coordinate system; collapsed to one field here), the dimension index values
for the position, and the per-frame value mapping slot (set only when the
array has more than one channel). -/
structure FrameGroup where
  planePosition : PlanePos
  dimensionIndexValues : List Int
  realWorldValueMapping : Option (List Mapping)
deriving DecidableEq, Inhabited

/-- Document models the assembled ParametricMap output: the attributes the
embedded part of __init__ sets on self.  The frames field records the local
frames list of the source (it determines NumberOfFrames at line 556 and the
pixel buffer at lines 559-563). -/
structure Document where
  rows : Nat
  cols : Nat
  bits : BitsAttrs
  sharedGroup : SharedGroup
  numberOfFrames : Nat
  perFrameGroups : List FrameGroup
  pixelDataAttr : String
  frames : List (List Nat)
  pixelData : List Nat
deriving DecidableEq, Inhabited

/-- BuildInput packages the constructor arguments the embedded pipeline
reads, together with the outputs of the three external collaborators:
derivedPlanePositions is what DimensionIndexSequence.get_plane_positions_of_*
returns when the plane_positions argument is None (lines 440-449),
spatialIndexValues i is row i of the array returned by
DimensionIndexSequence.get_index_values (lines 599-601), frameCodec is
highdicom.frame.encode_frame applied to the uint16 samples (line 736), and
encapsulateFrames is pydicom.encaps.encapsulate (line 560). -/
structure BuildInput where
  sourceImages : List SourceImage
  pixelArray : PixelArray
  mappings : MappingArg
  windowCenter : ℚ
  windowWidth : ℚ
  transferSyntaxUid : TransferSyntaxUid
  planePositions : Option (List PlanePos)
  derivedPlanePositions : List PlanePos
  spatialIndexValues : Nat → List Int
  frameCodec : List Nat → List Nat
  encapsulateFrames : List (List Nat) → List Nat

/-- srcKey is the uniqueness tuple of lines 212-221. -/
def srcKey (im : SourceImage) : Nat × Nat × Nat × Nat × Nat :=
  (im.studyInstanceUID, im.seriesInstanceUID, im.rows, im.columns,
   im.frameOfReferenceUID)

/-- checkSources embeds lines 208-238: at least one source image, all images
share the uniqueness tuple (the set built at lines 212-221 has at most one
element exactly when every key equals the key of the first image), and a
multi-frame first image must be the only image.  Returns src_img, the first
source image. -/
def checkSources : List SourceImage → Except BuildError SourceImage
  | [] => .error .noSourceImages
  | img :: rest =>
    if rest.all fun im => srcKey im == srcKey img then
      if img.numberOfFrames.isSome && !rest.isEmpty then
        .error .multipleMultiframeSources
      else
        .ok img
    else
      .error .inconsistentSourceImages

/-- supportedTransferSyntaxUids embeds lines 240-255: the two little-endian
native syntaxes always, plus the two lossless compressed syntaxes when the
dtype kind is unsigned or signed integer. -/
def supportedTransferSyntaxUids (k : DKind) : List TransferSyntaxUid :=
  if k = .unsigned ∨ k = .signed then
    [.implicitVRLittleEndian, .explicitVRLittleEndian,
     .jpeg2000Lossless, .rleLossless]
  else
    [.implicitVRLittleEndian, .explicitVRLittleEndian]

/-- checkTransferSupported embeds lines 256-259: reject a transfer syntax
outside the supported set for the dtype kind. -/
def checkTransferSupported (k : DKind) (ts : TransferSyntaxUid) :
    Except BuildError Unit :=
  if ts ∈ supportedTransferSyntaxUids k then .ok () else
    .error .unsupportedTransferSyntaxUid

/-- checkWindow embeds lines 261-262: window width must be positive. -/
def checkWindow (ww : ℚ) : Except BuildError Unit :=
  if ww ≤ 0 then .error .invalidWindow else .ok ()

/-- normShape3 embeds line 264-265: a rank-2 array gets a new leading axis. -/
def normShape3 (s : List Nat) : List Nat :=
  if s.length = 2 then 1 :: s else s

/-- processMappings embeds lines 376-426, run on the shape produced by
normShape3 (so length 2 never occurs; the length-2 arm mirrors the
unreachable line 398-399).  In the rank-2/3 branch the source demands a flat
nonempty sequence whose first item is a RealWorldValueMapping (an empty or
nested argument raises TypeError at lines 389-397), appends a trailing
channel axis, wraps the flat sequence as the single nested channel, and
stores the flat sequence in the shared group slot (line 388).  In the rank-4
branch the source demands a nested argument with a nonempty first element
(a flat or empty argument raises at lines 412-420; indexing a flat
RealWorldValueMapping item with [0][0] also raises) and leaves the shared
slot empty.  Any other rank raises ValueError at line 426.  Returns the
rank-4 shape, the nested mappings, and the shared-group mapping slot. -/
def processMappings (shape : List Nat) (ma : MappingArg) :
    Except BuildError (List Nat × List (List Mapping) × Option (List Mapping)) :=
  if shape.length = 2 ∨ shape.length = 3 then
    match ma with
    | .flat ms =>
      if ms.isEmpty then .error .mappingShapeMismatch
      else
        let shape4 := if shape.length = 2 then 1 :: shape ++ [1] else shape ++ [1]
        .ok (shape4, [ms], some ms)
    | .nested _ => .error .mappingShapeMismatch
  else if shape.length = 4 then
    match ma with
    | .flat _ => .error .mappingShapeMismatch
    | .nested mss =>
      if mss.isEmpty || (mss.headD []).isEmpty then .error .mappingShapeMismatch
      else .ok (shape, mss, none)
  else .error .invalidArrayRank

/-- normalizeMappings is the nested form the successful branches of
processMappings return: a flat sequence becomes the single channel of a
nested one (the cast at lines 402-405). -/
def normalizeMappings : MappingArg → List (List Mapping)
  | .flat ms => [ms]
  | .nested mss => mss

/-- checkMappingCount embeds lines 432-437: the nested mapping collection
must have exactly one entry per channel (size of the last array axis). -/
def checkMappingCount (nested : List (List Mapping)) (shape4 : List Nat) :
    Except BuildError Unit :=
  if nested.length ≠ shape4.getD 3 0 then .error .mappingCountMismatch
  else .ok ()

/-- resolvePlanePositions embeds lines 439-461: take the supplied plane
positions, or the collaborator-derived ones when none are supplied; either
way their count must equal the size of the first array axis. -/
def resolvePlanePositions (supplied : Option (List PlanePos))
    (derived : List PlanePos) (n : Nat) : Except BuildError (List PlanePos) :=
  match supplied with
  | none => if derived.length ≠ n then .error .planeCountMismatch else .ok derived
  | some pp => if pp.length ≠ n then .error .planeCountMismatch else .ok pp

/-- chosenPlanePositions names the position list the build validates and then
uses: the supplied one, else the derived one. -/
def chosenPlanePositions (supplied : Option (List PlanePos))
    (derived : List PlanePos) : List PlanePos :=
  supplied.getD derived

/-- getPixelDataTypeAndAttr embeds lines 639-708 (method
_get_pixel_data_type_and_attr), with the dtype name tests float32 / float64
rendered as itemsize 4 / 8 and the membership tests in (np.uint8, np.uint16)
and (np.int8, np.int16) rendered as itemsize 1 or 2. -/
def getPixelDataTypeAndAttr (dt : DType) :
    Except BuildError (PixelDataType × String) :=
  if dt.kind = .float then
    if dt.itemsize = 4 then .ok (.SINGLE, pixelDataAttrFor .SINGLE)
    else if dt.itemsize = 8 then .ok (.DOUBLE, pixelDataAttrFor .DOUBLE)
    else .error .unsupportedPixelDataType
  else if dt.kind = .unsigned then
    if dt.itemsize = 1 ∨ dt.itemsize = 2 then
      .ok (.USHORT, pixelDataAttrFor .USHORT)
    else .error .unsupportedPixelDataType
  else if dt.kind = .signed then
    if dt.itemsize = 1 ∨ dt.itemsize = 2 then
      .ok (.SHORT, pixelDataAttrFor .SHORT)
    else .error .unsupportedPixelDataType
  else .error .unsupportedPixelDataType

/-- bitsFor embeds lines 535-544: integer storage fixes BitsAllocated 16 with
BitsStored equal to BitsAllocated, HighBit one below BitsStored, and
PixelRepresentation 0; the float branches only set BitsAllocated. -/
def bitsFor : PixelDataType → BitsAttrs
  | .SHORT =>
    { bitsAllocated := 16, bitsStored := some 16, highBit := some (16 - 1),
      pixelRepresentation := some 0 }
  | .USHORT =>
    { bitsAllocated := 16, bitsStored := some 16, highBit := some (16 - 1),
      pixelRepresentation := some 0 }
  | .SINGLE =>
    { bitsAllocated := 32, bitsStored := none, highBit := none,
      pixelRepresentation := none }
  | .DOUBLE =>
    { bitsAllocated := 64, bitsStored := none, highBit := none,
      pixelRepresentation := none }

/-- leBytes k x is the little-endian k-byte serialization of x, modelling
numpy tobytes on a little-endian machine (DICOM little-endian syntaxes). -/
def leBytes : Nat → Nat → List Nat
  | 0, _ => []
  | k + 1, x => x % 256 :: leBytes k (x / 256)

/-- castU16 models astype(np.uint16) on one integer sample: reduction modulo
2 ^ 16 (numpy integer casts wrap). -/
def castU16 (v : Int) : Nat := (v % 65536).toNat

/-- signedStoredU16 models the native-mode signed sample transform of lines
747-749: astype(np.int16), plus 2 ** 16 / 2 (exact float addition for the
whole int16 range), then astype(np.uint16). -/
def signedStoredU16 (v : Int) : Nat := ((v + 32768) % 65536).toNat

/-- planeSamples lists the 2D plane pixel_array[i, :, :, j] of the rank-4
array in row-major order (the flatten of lines 746-751 and the 2D plane
handed to the codec at line 736). -/
def planeSamples (s4 : List Nat) (data : List Int) (i j : Nat) : List Int :=
  ((List.range (s4.getD 1 0)).map fun a =>
    (List.range (s4.getD 2 0)).map fun b =>
      data.getD (((i * s4.getD 1 0 + a) * s4.getD 2 0 + b) * s4.getD 3 0 + j) 0).flatten

/-- encodeFrame embeds lines 710-751 (method _encode_frame) on the row-major
sample list of one plane.  Encapsulated mode casts the samples to uint16 and
delegates to the external frame codec; native mode widens uint8 to uint16,
shifts signed values by the rescale intercept into uint16, and serializes
every other dtype at its native itemsize, all little-endian. -/
def encodeFrame (isEncaps : Bool) (codec : List Nat → List Nat) (dt : DType)
    (plane : List Int) : List Nat :=
  if isEncaps then
    codec (plane.map castU16)
  else if dt = DType.uint8 then
    (plane.map fun v => leBytes 2 (castU16 v)).flatten
  else if dt.kind = .signed then
    (plane.map fun v => leBytes 2 (signedStoredU16 v)).flatten
  else
    (plane.map fun v => leBytes dt.itemsize ((v % ((2 : Int) ^ (8 * dt.itemsize))).toNat)).flatten

/-- rowPairs i m lists the index pairs of one outer-loop iteration of
_create_frame_items: channel j runs from 0 to m - 1. -/
def rowPairs (i m : Nat) : List (Nat × Nat) :=
  (List.range m).map fun j => (i, j)

/-- pairRange n m lists the (position, channel) pairs in the order of the
double loop at lines 605-606: position-major, channel-minor. -/
def pairRange : Nat → Nat → List (Nat × Nat)
  | 0, _ => []
  | n + 1, m => pairRange n m ++ rowPairs n m

/-- createFrameItems embeds the loop body of _create_frame_items (lines
602-637): for every (i, j) in loop order, the encoded frame bytes of plane
(i, j) paired with the per-frame functional group item, which references
plane position i, carries the dimension index values of position i, and
carries the channel-j value mapping exactly when the array has more than one
channel (has_multiple_mappings, line 604). -/
def createFrameItems (inp : BuildInput) (s4 : List Nat)
    (nested : List (List Mapping)) (pp : List PlanePos) :
    List (List Nat × FrameGroup) :=
  (pairRange (s4.getD 0 0) (s4.getD 3 0)).map fun ij =>
    (encodeFrame inp.transferSyntaxUid.isEncapsulated inp.frameCodec
       inp.pixelArray.dtype (planeSamples s4 inp.pixelArray.data ij.1 ij.2),
     { planePosition := pp.getD ij.1 0
       dimensionIndexValues := inp.spatialIndexValues ij.1
       realWorldValueMapping :=
         if 1 < s4.getD 3 0 then some (nested.getD ij.2 []) else none })

/-- assembleDocument collects what the success path of __init__ sets on self
from the validated data: Rows and Columns (lines 429-430), the shared group
(lines 376-529), the bit attributes (lines 535-544), the frame list with
NumberOfFrames and the per-frame groups (lines 549-557), and the pixel
buffer, encapsulated or concatenated (lines 559-563). -/
def assembleDocument (inp : BuildInput) (s4 : List Nat)
    (nested : List (List Mapping)) (sharedMapping : Option (List Mapping))
    (pp : List PlanePos) (pdtAttr : PixelDataType × String) : Document :=
  let items := createFrameItems inp s4 nested pp
  let frames := items.map Prod.fst
  { rows := s4.getD 1 0
    cols := s4.getD 2 0
    bits := bitsFor pdtAttr.1
    sharedGroup :=
      { realWorldValueMapping := sharedMapping
        rescaleIntercept :=
          if inp.pixelArray.dtype.kind = .signed then (2 : Int) ^ 16 / 2 else 0
        rescaleSlope := 1
        windowCenter := inp.windowCenter
        windowWidth := inp.windowWidth }
    numberOfFrames := frames.length
    perFrameGroups := items.map Prod.snd
    pixelDataAttr := pdtAttr.2
    frames := frames
    pixelData :=
      if inp.transferSyntaxUid.isEncapsulated then inp.encapsulateFrames frames
      else frames.flatten }

/-- build chains the embedded stages of ParametricMap.__init__ in source
order: source-image checks (208-238), transfer syntax check (240-259),
window check (261-262), rank normalization and mapping shape handling
(264-426), channel count check (432-437), plane position resolution
(439-461), dtype resolution (532-534), and assembly (429-430, 501-563).
A stage failure aborts the build with its error and nothing is produced. -/
def build (inp : BuildInput) : Except BuildError Document :=
  (checkSources inp.sourceImages).bind fun _src =>
  (checkTransferSupported inp.pixelArray.dtype.kind inp.transferSyntaxUid).bind fun _ =>
  (checkWindow inp.windowWidth).bind fun _ =>
  (processMappings (normShape3 inp.pixelArray.shape) inp.mappings).bind fun v =>
  (checkMappingCount v.2.1 v.1).bind fun _ =>
  (resolvePlanePositions inp.planePositions inp.derivedPlanePositions
      (v.1.getD 0 0)).bind fun pp =>
  (getPixelDataTypeAndAttr inp.pixelArray.dtype).bind fun pdtAttr =>
  .ok (assembleDocument inp v.1 v.2.1 v.2.2 pp pdtAttr)

/-- normShape4 is the rank-4 shape the mapping stage settles on (normShape3
followed by the channel-axis append of lines 398-401). -/
def normShape4 (s : List Nat) : List Nat :=
  let s3 := normShape3 s
  if s3.length = 2 then 1 :: s3 ++ [1]
  else if s3.length = 3 then s3 ++ [1]
  else s3

/-- arrN is the position count of the normalized array (first axis). -/
def arrN (s : List Nat) : Nat := (normShape4 s).getD 0 0

/-- arrM is the channel count of the normalized array (last axis). -/
def arrM (s : List Nat) : Nat := (normShape4 s).getD 3 0

/-- decodeU16LE reads a byte buffer back as a sequence of unsigned 16-bit
little-endian samples (the re-reading direction of the round-trip claims). -/
def decodeU16LE : List Nat → List Nat
  | b0 :: b1 :: rest => (b0 + 256 * b1) :: decodeU16LE rest
  | _ => []

/-- img0 is a minimal single-frame source image shared by the concrete
instances below. -/
def img0 : SourceImage :=
  { studyInstanceUID := 1, seriesInstanceUID := 2, rows := 4, columns := 4,
    frameOfReferenceUID := 5, numberOfFrames := none }

/-- c1Input is a concrete valid four-channel-shaped build: uint8 array of
shape (2, 2, 2, 2), two nested channel mappings, two supplied positions. -/
def c1Input : BuildInput :=
  { sourceImages := [img0]
    pixelArray :=
      { dtype := DType.uint8, shape := [2, 2, 2, 2],
        data := (List.range 16).map Int.ofNat }
    mappings := .nested [[1], [2]]
    windowCenter := 0
    windowWidth := 1
    transferSyntaxUid := .implicitVRLittleEndian
    planePositions := some [10, 20]
    derivedPlanePositions := []
    spatialIndexValues := fun i => [Int.ofNat i]
    frameCodec := fun s => s
    encapsulateFrames := fun fs => fs.flatten }

/-- c1Doc is the document assembled from c1Input. -/
def c1Doc : Document := ((build c1Input).toOption).getD default

/-- c2Input is a valid build from a rank-4 array whose channel axis has size
one: uint8 array of shape (1, 1, 1, 1) and a single nested channel mapping
[[3]]. -/
def c2Input : BuildInput :=
  { sourceImages := [img0]
    pixelArray := { dtype := DType.uint8, shape := [1, 1, 1, 1], data := [7] }
    mappings := .nested [[3]]
    windowCenter := 0
    windowWidth := 1
    transferSyntaxUid := .implicitVRLittleEndian
    planePositions := some [0]
    derivedPlanePositions := []
    spatialIndexValues := fun _ => []
    frameCodec := fun s => s
    encapsulateFrames := fun fs => fs.flatten }

/-- c3Input is a concrete valid signed build: int16 array of shape (1, 1). -/
def c3Input : BuildInput :=
  { sourceImages := [img0]
    pixelArray := { dtype := DType.int16, shape := [1, 1], data := [-5] }
    mappings := .flat [3]
    windowCenter := 0
    windowWidth := 1
    transferSyntaxUid := .implicitVRLittleEndian
    planePositions := some [0]
    derivedPlanePositions := []
    spatialIndexValues := fun _ => []
    frameCodec := fun s => s
    encapsulateFrames := fun fs => fs.flatten }

/-- c3Doc is the document assembled from c3Input. -/
def c3Doc : Document := ((build c3Input).toOption).getD default

/-- c4Input is the spec example: uint8 array of shape (3, 4, 4, 1), three
plane positions, one channel mapping, native little-endian storage. -/
def c4Input : BuildInput :=
  { sourceImages := [img0]
    pixelArray :=
      { dtype := DType.uint8, shape := [3, 4, 4, 1],
        data := (List.range 48).map Int.ofNat }
    mappings := .nested [[3]]
    windowCenter := 0
    windowWidth := 1
    transferSyntaxUid := .implicitVRLittleEndian
    planePositions := some [0, 1, 2]
    derivedPlanePositions := []
    spatialIndexValues := fun i => [Int.ofNat i]
    frameCodec := fun s => s
    encapsulateFrames := fun fs => fs.flatten }

/-- c4Doc is the document assembled from c4Input. -/
def c4Doc : Document := ((build c4Input).toOption).getD default

/-- c6Input requests a compressed syntax for a floating-point array. -/
def c6Input : BuildInput :=
  { sourceImages := [img0]
    pixelArray := { dtype := DType.float32, shape := [1, 1], data := [0] }
    mappings := .flat [3]
    windowCenter := 0
    windowWidth := 1
    transferSyntaxUid := .jpeg2000Lossless
    planePositions := some [0]
    derivedPlanePositions := []
    spatialIndexValues := fun _ => []
    frameCodec := fun s => s
    encapsulateFrames := fun fs => fs.flatten }

/-- c7Input is the spec error example: array of shape (2, 5, 5, 3) with only
two nested channel mappings. -/
def c7Input : BuildInput :=
  { sourceImages := [img0]
    pixelArray := { dtype := DType.uint8, shape := [2, 5, 5, 3], data := [] }
    mappings := .nested [[1], [2]]
    windowCenter := 0
    windowWidth := 1
    transferSyntaxUid := .implicitVRLittleEndian
    planePositions := some [0, 1]
    derivedPlanePositions := []
    spatialIndexValues := fun _ => []
    frameCodec := fun s => s
    encapsulateFrames := fun fs => fs.flatten }

/-- c8Input supplies one plane position for a rank-3 array with two planes. -/
def c8Input : BuildInput :=
  { sourceImages := [img0]
    pixelArray := { dtype := DType.uint8, shape := [2, 2, 2], data := [] }
    mappings := .flat [3]
    windowCenter := 0
    windowWidth := 1
    transferSyntaxUid := .implicitVRLittleEndian
    planePositions := some [0]
    derivedPlanePositions := []
    spatialIndexValues := fun _ => []
    frameCodec := fun s => s
    encapsulateFrames := fun fs => fs.flatten }

/-- c9Input requests window width zero. -/
def c9Input : BuildInput :=
  { sourceImages := [img0]
    pixelArray := { dtype := DType.uint8, shape := [1, 1], data := [7] }
    mappings := .flat [3]
    windowCenter := 0
    windowWidth := 0
    transferSyntaxUid := .implicitVRLittleEndian
    planePositions := some [0]
    derivedPlanePositions := []
    spatialIndexValues := fun _ => []
    frameCodec := fun s => s
    encapsulateFrames := fun fs => fs.flatten }

theorem except_bind_ok {ε α β : Type} (a : α) (f : α → Except ε β) :
    (Except.ok a).bind f = f a := rfl

theorem except_bind_error {ε α β : Type} (e : ε) (f : α → Except ε β) :
    (Except.error e : Except ε α).bind f = .error e := rfl

theorem bind_ok_inv {ε α β : Type} (x : Except ε α) (f : α → Except ε β)
    (b : β) (h : x.bind f = .ok b) : ∃ a, x = .ok a ∧ f a = .ok b := by
  rcases x with e | a
  · rw [except_bind_error] at h
    exact absurd h (by simp)
  · exact ⟨a, rfl, h⟩

theorem rowPairs_length (i m : Nat) : (rowPairs i m).length = m := by
  simp [rowPairs]

theorem pairRange_length (n m : Nat) : (pairRange n m).length = n * m := by
  induction n with
  | zero => simp [pairRange]
  | succ k ih => simp [pairRange, ih, rowPairs_length, Nat.succ_mul]

theorem pairRange_getElem? (n m i j : Nat) (hi : i < n) (hj : j < m) :
    (pairRange n m)[i * m + j]? = some (i, j) := by
  induction n with
  | zero => omega
  | succ k ih =>
    rw [pairRange]
    rcases Nat.lt_or_ge i k with h | h
    · rw [List.getElem?_append_left]
      · exact ih h
      · rw [pairRange_length]
        calc i * m + j < i * m + m := by omega
          _ = (i + 1) * m := by ring
          _ ≤ k * m := Nat.mul_le_mul_right m h
    · have hik : i = k := by omega
      subst hik
      rw [List.getElem?_append_right (by rw [pairRange_length]; omega)]
      rw [pairRange_length, Nat.add_sub_cancel_left, rowPairs]
      simp [List.getElem?_range, hj]

theorem getD_of_getElem? {α : Type} (l : List α) (n : Nat) (a d : α)
    (h : l[n]? = some a) : l.getD n d = a := by
  simp [List.getD_eq_getElem?_getD, h]

theorem map_getD_of_getElem? {α β : Type} (l : List α) (f : α → β) (n : Nat)
    (a : α) (d : β) (h : l[n]? = some a) : (l.map f).getD n d = f a := by
  simp [List.getD_eq_getElem?_getD, List.getElem?_map, h]

theorem leBytes_two (x : Nat) : leBytes 2 x = [x % 256, x / 256 % 256] := by
  simp [leBytes]

theorem decodeU16LE_cons (b0 b1 : Nat) (t : List Nat) :
    decodeU16LE (b0 :: b1 :: t) = (b0 + 256 * b1) :: decodeU16LE t := rfl

theorem decodeU16LE_mapflatten (g : Int → Nat) (hg : ∀ v, g v < 65536)
    (plane : List Int) (rest : List Nat) :
    decodeU16LE ((plane.map fun v => leBytes 2 (g v)).flatten ++ rest) =
      plane.map g ++ decodeU16LE rest := by
  induction plane with
  | nil => simp
  | cons x xs ih =>
    have hx := hg x
    rw [List.map_cons, List.flatten_cons, List.append_assoc, leBytes_two,
      List.cons_append, List.cons_append, List.nil_append, decodeU16LE_cons,
      ih, List.map_cons, List.cons_append]
    have : g x % 256 + 256 * (g x / 256 % 256) = g x := by omega
    rw [this]

theorem decodeU16LE_framesflatten (g : Int → Nat) (hg : ∀ v, g v < 65536)
    (planes : List (List Int)) :
    decodeU16LE ((planes.map fun p => (p.map fun v => leBytes 2 (g v)).flatten).flatten) =
      (planes.map fun p => p.map g).flatten := by
  induction planes with
  | nil => rfl
  | cons p ps ih =>
    simp only [List.map_cons, List.flatten_cons]
    rw [decodeU16LE_mapflatten g hg p _, ih]

theorem castU16_lt (v : Int) : castU16 v < 65536 := by
  unfold castU16
  omega

theorem signedStoredU16_lt (v : Int) : signedStoredU16 v < 65536 := by
  unfold signedStoredU16
  omega

theorem checkWindow_ok_inv (ww : ℚ) (u : Unit) (h : checkWindow ww = .ok u) :
    ¬ ww ≤ 0 := by
  unfold checkWindow at h
  split at h
  · exact absurd h (by simp)
  · assumption

theorem checkMappingCount_ok_inv (nested : List (List Mapping))
    (shape4 : List Nat) (u : Unit) (h : checkMappingCount nested shape4 = .ok u) :
    nested.length = shape4.getD 3 0 := by
  unfold checkMappingCount at h
  split at h
  · exact absurd h (by simp)
  · omega

theorem processMappings_ok_inv (s : List Nat) (ma : MappingArg)
    (s4 : List Nat) (nested : List (List Mapping)) (sh : Option (List Mapping))
    (h : processMappings s ma = .ok (s4, nested, sh)) :
    s4 = (if s.length = 2 then 1 :: s ++ [1]
          else if s.length = 3 then s ++ [1] else s) ∧
      nested = normalizeMappings ma := by
  unfold processMappings at h
  split at h
  · rename_i h23
    cases ma with
    | flat ms =>
      simp only at h
      split at h
      · exact absurd h (by simp)
      · simp only [Except.ok.injEq, Prod.mk.injEq] at h
        obtain ⟨h1, h2, _⟩ := h
        rcases h23 with h2len | h3len
        · simp [← h1, ← h2, h2len, normalizeMappings]
        · have : s.length ≠ 2 := by omega
          simp [← h1, ← h2, h3len, this, normalizeMappings]
    | nested mss => exact absurd h (by simp)
  · split at h
    · rename_i hne h4len
      cases ma with
      | flat ms => exact absurd h (by simp)
      | nested mss =>
        simp only at h
        split at h
        · exact absurd h (by simp)
        · simp only [Except.ok.injEq, Prod.mk.injEq] at h
          obtain ⟨h1, h2, _⟩ := h
          have : s.length ≠ 2 ∧ s.length ≠ 3 := by
            constructor <;> intro hc <;> exact hne (by omega)
          simp [← h1, ← h2, this.1, this.2, h4len, normalizeMappings]
    · exact absurd h (by simp)

theorem resolvePlanePositions_ok_inv (supplied : Option (List PlanePos))
    (derived : List PlanePos) (n : Nat) (pp : List PlanePos)
    (h : resolvePlanePositions supplied derived n = .ok pp) :
    pp = chosenPlanePositions supplied derived ∧ pp.length = n := by
  cases supplied with
  | none =>
    have hdef : resolvePlanePositions none derived n =
        if derived.length ≠ n then .error .planeCountMismatch else .ok derived := rfl
    rw [hdef] at h
    by_cases hc : derived.length ≠ n
    · rw [if_pos hc] at h
      exact absurd h (by simp)
    · rw [if_neg hc] at h
      simp only [Except.ok.injEq] at h
      subst h
      exact ⟨rfl, by omega⟩
  | some l =>
    have hdef : resolvePlanePositions (some l) derived n =
        if l.length ≠ n then .error .planeCountMismatch else .ok l := rfl
    rw [hdef] at h
    by_cases hc : l.length ≠ n
    · rw [if_pos hc] at h
      exact absurd h (by simp)
    · rw [if_neg hc] at h
      simp only [Except.ok.injEq] at h
      subst h
      exact ⟨rfl, by omega⟩

theorem build_ok_inv (inp : BuildInput) (doc : Document)
    (h : build inp = .ok doc) :
    ∃ img s4 nested sh pp pdtAttr,
      checkSources inp.sourceImages = .ok img ∧
      checkTransferSupported inp.pixelArray.dtype.kind inp.transferSyntaxUid = .ok () ∧
      ¬ inp.windowWidth ≤ 0 ∧
      processMappings (normShape3 inp.pixelArray.shape) inp.mappings = .ok (s4, nested, sh) ∧
      nested.length = s4.getD 3 0 ∧
      resolvePlanePositions inp.planePositions inp.derivedPlanePositions
          (s4.getD 0 0) = .ok pp ∧
      getPixelDataTypeAndAttr inp.pixelArray.dtype = .ok pdtAttr ∧
      doc = assembleDocument inp s4 nested sh pp pdtAttr := by
  unfold build at h
  obtain ⟨img, hsrc, h⟩ := bind_ok_inv _ _ _ h
  obtain ⟨u1, hts, h⟩ := bind_ok_inv _ _ _ h
  obtain ⟨u2, hww, h⟩ := bind_ok_inv _ _ _ h
  obtain ⟨v, hmap, h⟩ := bind_ok_inv _ _ _ h
  obtain ⟨u3, hcnt, h⟩ := bind_ok_inv _ _ _ h
  obtain ⟨pp, hpp, h⟩ := bind_ok_inv _ _ _ h
  obtain ⟨pdtAttr, hpdt, h⟩ := bind_ok_inv _ _ _ h
  simp only [Except.ok.injEq] at h
  refine ⟨img, v.1, v.2.1, v.2.2, pp, pdtAttr, hsrc, ?_, ?_, ?_, ?_, hpp, hpdt, h.symm⟩
  · cases u1
    exact hts
  · exact checkWindow_ok_inv _ _ hww
  · exact hmap
  · exact checkMappingCount_ok_inv _ _ _ hcnt

/-- normShape4_of_processMappings relates the rank-4 shape returned by the
mapping stage, when run on the normalized rank-3-or-more shape, to
normShape4 of the original shape. -/
theorem normShape4_of_processMappings (s : List Nat) (ma : MappingArg)
    (s4 : List Nat) (nested : List (List Mapping)) (sh : Option (List Mapping))
    (h : processMappings (normShape3 s) ma = .ok (s4, nested, sh)) :
    s4 = normShape4 s ∧ nested = normalizeMappings ma := by
  obtain ⟨h1, h2⟩ := processMappings_ok_inv _ _ _ _ _ h
  exact ⟨by rw [h1, normShape4], h2⟩

theorem decodeU16LE_nil : decodeU16LE [] = [] := rfl

theorem decodeU16LE_mapflatten_nil (g : Int → Nat) (hg : ∀ v, g v < 65536)
    (plane : List Int) :
    decodeU16LE ((plane.map fun v => leBytes 2 (g v)).flatten) = plane.map g := by
  have h := decodeU16LE_mapflatten g hg plane []
  simpa [decodeU16LE_nil] using h

theorem getD_mem_or_default (l : List Int) (k : Nat) :
    l.getD k 0 ∈ l ∨ l.getD k 0 = 0 := by
  rw [List.getD_eq_getElem?_getD]
  cases h : l[k]? with
  | none => simp
  | some a =>
    left
    simp only [Option.getD_some]
    exact List.getElem?_mem h

theorem castU16_eq_toNat (v : Int) (h0 : 0 ≤ v) (h1 : v < 65536) :
    castU16 v = v.toNat := by
  unfold castU16
  omega

theorem planeSamples_bound (s4 : List Nat) (data : List Int)
    (hwf : ∀ v ∈ data, 0 ≤ v ∧ v < 65536) (i j : Nat) :
    ∀ v ∈ planeSamples s4 data i j, 0 ≤ v ∧ v < 65536 := by
  intro v hv
  unfold planeSamples at hv
  simp only [List.mem_flatten, List.mem_map, List.mem_range] at hv
  obtain ⟨l, ⟨a, _, rfl⟩, hvl⟩ := hv
  rw [List.mem_map] at hvl
  obtain ⟨b, _, rfl⟩ := hvl
  rcases getD_mem_or_default data _ with hmem | h0
  · exact hwf _ hmem
  · rw [h0]
    omega

theorem encodeFrame_encaps (codec : List Nat → List Nat) (dt : DType)
    (plane : List Int) :
    encodeFrame true codec dt plane = codec (plane.map castU16) := rfl

theorem encodeFrame_native_signed (codec : List Nat → List Nat) (dt : DType)
    (hdt : dt.kind = .signed) (plane : List Int) :
    encodeFrame false codec dt plane =
      (plane.map fun v => leBytes 2 (signedStoredU16 v)).flatten := by
  have hne : dt ≠ DType.uint8 := by
    intro hc
    rw [hc] at hdt
    exact absurd hdt (by decide)
  unfold encodeFrame
  rw [if_neg (by simp), if_neg hne, if_pos hdt]

theorem encodeFrame_native_u16 (codec : List Nat → List Nat) (dt : DType)
    (hdt : dt = DType.uint8 ∨ dt = DType.uint16) (plane : List Int) :
    encodeFrame false codec dt plane =
      (plane.map fun v => leBytes 2 (castU16 v)).flatten := by
  rcases hdt with h | h <;> subst h
  · unfold encodeFrame
    rw [if_neg (by simp), if_pos rfl]
  · unfold encodeFrame
    rw [if_neg (by simp), if_neg (by decide), if_neg (by decide)]
    congr 1

/-- C2 (status: code bug).  The claim says a valid single-channel build
stores the channel mapping exactly once in the shared functional group, for
2D, 3D and 4D input alike.  The code only assigns
RealWorldValueMappingSequence to the shared group in the 2D/3D branch (line
388); in the 4D branch nothing assigns it (the TODO at line 528), and for a
single channel the per-frame branch also skips it (lines 604, 625-630).  So
the build from c2Input, a valid rank-4 single-channel input, succeeds with
one frame, yet carries the mapping neither in the shared group nor in any
per-frame group, contradicting the claim, the spec, and the source comments
at lines 378-381 and 625-628. -/
theorem c2_shared_mapping_dropped :
    (build c2Input).toOption.map
      (fun d => (d.numberOfFrames,
                 d.sharedGroup.realWorldValueMapping,
                 d.perFrameGroups.map fun g => g.realWorldValueMapping)) =
    some (1, none, [none]) := by decide

/-- C5: getPixelDataTypeAndAttr is total on element types: int8/int16 give
the signed-short policy, uint8/uint16 the unsigned-short one, float32
single, float64 double, and every other kind or width fails with the
unsupported-element-type error; bitsFor fixes bits-allocated 16/16/32/64,
with bits-stored and high-bit derived from bits-allocated only for the two
integer variants.  The resolution runs once per build (one
getPixelDataTypeAndAttr stage in build), fixing the policy for the whole
document. -/
theorem c5_representation_policy :
    (∀ dt : DType,
      dt ∉ [DType.int8, DType.int16, DType.uint8, DType.uint16,
        DType.float32, DType.float64] →
      getPixelDataTypeAndAttr dt = .error .unsupportedPixelDataType) ∧
    getPixelDataTypeAndAttr DType.int8 = .ok (.SHORT, "PixelData") ∧
    getPixelDataTypeAndAttr DType.int16 = .ok (.SHORT, "PixelData") ∧
    getPixelDataTypeAndAttr DType.uint8 = .ok (.USHORT, "PixelData") ∧
    getPixelDataTypeAndAttr DType.uint16 = .ok (.USHORT, "PixelData") ∧
    getPixelDataTypeAndAttr DType.float32 = .ok (.SINGLE, "FloatPixelData") ∧
    getPixelDataTypeAndAttr DType.float64 = .ok (.DOUBLE, "DoubleFloatPixelData") ∧
    (bitsFor .SHORT).bitsAllocated = 16 ∧
    (bitsFor .USHORT).bitsAllocated = 16 ∧
    (bitsFor .SINGLE).bitsAllocated = 32 ∧
    (bitsFor .DOUBLE).bitsAllocated = 64 ∧
    (bitsFor .SHORT).bitsStored = some (bitsFor .SHORT).bitsAllocated ∧
    (bitsFor .SHORT).highBit = some ((bitsFor .SHORT).bitsAllocated - 1) ∧
    (bitsFor .USHORT).bitsStored = some (bitsFor .USHORT).bitsAllocated ∧
    (bitsFor .USHORT).highBit = some ((bitsFor .USHORT).bitsAllocated - 1) ∧
    (bitsFor .SINGLE).bitsStored = none ∧
    (bitsFor .SINGLE).highBit = none ∧
    (bitsFor .DOUBLE).bitsStored = none ∧
    (bitsFor .DOUBLE).highBit = none := by
  refine ⟨?_, by decide⟩
  rintro ⟨k, w⟩ hmem
  cases k with
  | signed =>
    have h1 : w ≠ 1 := by rintro rfl; exact hmem (by decide)
    have h2 : w ≠ 2 := by rintro rfl; exact hmem (by decide)
    simp [getPixelDataTypeAndAttr, h1, h2]
  | unsigned =>
    have h1 : w ≠ 1 := by rintro rfl; exact hmem (by decide)
    have h2 : w ≠ 2 := by rintro rfl; exact hmem (by decide)
    simp [getPixelDataTypeAndAttr, h1, h2]
  | float =>
    have h4 : w ≠ 4 := by rintro rfl; exact hmem (by decide)
    have h8 : w ≠ 8 := by rintro rfl; exact hmem (by decide)
    simp [getPixelDataTypeAndAttr, h4, h8]
  | nonNumeric => simp [getPixelDataTypeAndAttr]

/-- C5 witness: a 32-bit signed integer element type is rejected. -/
theorem c5_representation_policy_witness :
    getPixelDataTypeAndAttr ⟨DKind.signed, 4⟩ = .error .unsupportedPixelDataType :=
  c5_representation_policy.1 ⟨DKind.signed, 4⟩ (by decide)

/-- C6: under consistent source images, a floating-point array with a
compressed (encapsulated) storage syntax makes the build fail with the
unsupported-storage-syntax error; integer kinds support all four syntaxes;
a syntax outside the supported set is rejected for every element kind, and
at build level for the actual input kind. -/
theorem c6_storage_syntax_restrictions (inp : BuildInput) (img : SourceImage)
    (hsrc : checkSources inp.sourceImages = .ok img) :
    (inp.pixelArray.dtype.kind = .float →
      (inp.transferSyntaxUid = .jpeg2000Lossless ∨
        inp.transferSyntaxUid = .rleLossless) →
      build inp = .error .unsupportedTransferSyntaxUid) ∧
    (∀ k : DKind, k = .signed ∨ k = .unsigned →
      ∀ ts : TransferSyntaxUid,
        ts = .implicitVRLittleEndian ∨ ts = .explicitVRLittleEndian ∨
          ts = .jpeg2000Lossless ∨ ts = .rleLossless →
        checkTransferSupported k ts = .ok ()) ∧
    (∀ k : DKind,
      checkTransferSupported k .otherUid = .error .unsupportedTransferSyntaxUid) ∧
    (inp.transferSyntaxUid = .otherUid →
      build inp = .error .unsupportedTransferSyntaxUid) := by
  refine ⟨?_, ?_, ?_, ?_⟩
  · intro hf hts
    unfold build
    rw [hsrc, except_bind_ok]
    have hcts : checkTransferSupported inp.pixelArray.dtype.kind
        inp.transferSyntaxUid = .error .unsupportedTransferSyntaxUid := by
      rw [hf]
      rcases hts with h | h <;> rw [h] <;> decide
    rw [hcts, except_bind_error]
  · intro k hk ts hts
    rcases hk with h | h <;> subst h <;>
      rcases hts with h | h | h | h <;> subst h <;> decide
  · intro k
    cases k <;> decide
  · intro h
    unfold build
    rw [hsrc, except_bind_ok]
    have hcts : checkTransferSupported inp.pixelArray.dtype.kind
        inp.transferSyntaxUid = .error .unsupportedTransferSyntaxUid := by
      rw [h]
      cases inp.pixelArray.dtype.kind <;> decide
    rw [hcts, except_bind_error]

/-- C6 witness: a float32 array with the JPEG 2000 Lossless syntax fails. -/
theorem c6_storage_syntax_restrictions_witness :
    build c6Input = .error .unsupportedTransferSyntaxUid :=
  (c6_storage_syntax_restrictions c6Input img0 rfl).1 rfl (Or.inl rfl)

/-- C9: under consistent source images and a supported storage syntax, a
window width that is zero or negative makes the build fail with the
invalid-window error; the failed build returns no document, so no frame
bytes are produced and no pixel-data attribute is set. -/
theorem c9_invalid_window (inp : BuildInput) (img : SourceImage)
    (hsrc : checkSources inp.sourceImages = .ok img)
    (hts : checkTransferSupported inp.pixelArray.dtype.kind
      inp.transferSyntaxUid = .ok ())
    (hww : inp.windowWidth ≤ 0) :
    build inp = .error .invalidWindow := by
  unfold build
  rw [hsrc, except_bind_ok, hts, except_bind_ok]
  have hcw : checkWindow inp.windowWidth = .error .invalidWindow := by
    unfold checkWindow
    rw [if_pos hww]
  rw [hcw, except_bind_error]

/-- C9 witness: window width exactly zero fails with the invalid-window
error. -/
theorem c9_invalid_window_witness :
    build c9Input = .error .invalidWindow :=
  c9_invalid_window c9Input img0 rfl rfl (by decide)

/-- C10: in encapsulated mode every sample is handed to the frame codec
after a plain cast to unsigned 16 bits, i.e. reduced modulo 2 ^ 16, so -1
becomes 65535; the rescale-intercept shift of 2 ^ 15 the native signed path
applies (signedStoredU16) is not applied, and the two transforms disagree
at -1. -/
theorem c10_encapsulated_plain_cast :
    (∀ (codec : List Nat → List Nat) (dt : DType) (plane : List Int),
      encodeFrame true codec dt plane = codec (plane.map castU16)) ∧
    (∀ v : Int, castU16 v = (v % 65536).toNat) ∧
    castU16 (-1) = 65535 ∧
    signedStoredU16 (-1) = 32767 ∧
    castU16 (-1) ≠ signedStoredU16 (-1) :=
  ⟨fun codec dt plane => encodeFrame_encaps codec dt plane,
   fun _ => rfl, by decide, by decide, by decide⟩

/-- C7: under source images, syntax and window checks passing, the build
fails before producing anything (the error result carries no document and
no pixel data) whenever the mapping argument has the wrong shape: a flat
sequence for a multi-channel rank-4 array, a nested sequence for a rank-2/3
array, or a nested sequence whose length differs from the channel axis of a
rank-4 array. -/
theorem c7_mapping_shape_mismatch (inp : BuildInput) (img : SourceImage)
    (hsrc : checkSources inp.sourceImages = .ok img)
    (hts : checkTransferSupported inp.pixelArray.dtype.kind
      inp.transferSyntaxUid = .ok ())
    (hww : ¬ inp.windowWidth ≤ 0) :
    (inp.pixelArray.shape.length = 4 → 1 < inp.pixelArray.shape.getD 3 0 →
      ∀ ms, inp.mappings = .flat ms →
        build inp = .error .mappingShapeMismatch) ∧
    ((inp.pixelArray.shape.length = 2 ∨ inp.pixelArray.shape.length = 3) →
      ∀ mss, inp.mappings = .nested mss →
        build inp = .error .mappingShapeMismatch) ∧
    (inp.pixelArray.shape.length = 4 →
      ∀ mss, inp.mappings = .nested mss → mss ≠ [] → mss.headD [] ≠ [] →
        mss.length ≠ inp.pixelArray.shape.getD 3 0 →
        build inp = .error .mappingCountMismatch) := by
  have hcw : checkWindow inp.windowWidth = .ok () := by
    unfold checkWindow
    rw [if_neg hww]
  refine ⟨?_, ?_, ?_⟩
  · intro h4 _ ms hma
    unfold build
    rw [hsrc, except_bind_ok, hts, except_bind_ok, hcw, except_bind_ok]
    have hn3 : normShape3 inp.pixelArray.shape = inp.pixelArray.shape := by
      unfold normShape3
      rw [if_neg (by omega)]
    have hpm : processMappings (normShape3 inp.pixelArray.shape) inp.mappings =
        .error .mappingShapeMismatch := by
      rw [hn3, hma]
      unfold processMappings
      rw [if_neg (by omega), if_pos h4]
    rw [hpm, except_bind_error]
  · intro h23 mss hma
    unfold build
    rw [hsrc, except_bind_ok, hts, except_bind_ok, hcw, except_bind_ok]
    have h3 : (normShape3 inp.pixelArray.shape).length = 2 ∨
        (normShape3 inp.pixelArray.shape).length = 3 := by
      unfold normShape3
      rcases h23 with h | h
      · rw [if_pos h]
        right
        simp [h]
      · rw [if_neg (by omega)]
        right
        exact h
    have hpm : processMappings (normShape3 inp.pixelArray.shape) inp.mappings =
        .error .mappingShapeMismatch := by
      rw [hma]
      unfold processMappings
      rw [if_pos h3]
    rw [hpm, except_bind_error]
  · intro h4 mss hma hne hhd hcnt
    unfold build
    rw [hsrc, except_bind_ok, hts, except_bind_ok, hcw, except_bind_ok]
    have hn3 : normShape3 inp.pixelArray.shape = inp.pixelArray.shape := by
      unfold normShape3
      rw [if_neg (by omega)]
    have hpm : processMappings (normShape3 inp.pixelArray.shape) inp.mappings =
        .ok (inp.pixelArray.shape, mss, none) := by
      rw [hn3, hma]
      unfold processMappings
      rw [if_neg (by omega), if_pos h4]
      have hb : (mss.isEmpty || (mss.headD []).isEmpty) = false := by
        cases mss with
        | nil => exact absurd rfl hne
        | cons x xs =>
          cases x with
          | nil => exact absurd rfl hhd
          | cons y ys => rfl
      show (if (mss.isEmpty || (mss.headD []).isEmpty) = true then
          Except.error BuildError.mappingShapeMismatch
        else Except.ok (inp.pixelArray.shape, mss, none)) =
        Except.ok (inp.pixelArray.shape, mss, none)
      rw [hb]
      simp
    rw [hpm, except_bind_ok]
    have hcm : checkMappingCount mss inp.pixelArray.shape =
        .error .mappingCountMismatch := by
      unfold checkMappingCount
      rw [if_pos hcnt]
    rw [hcm, except_bind_error]

/-- C7 witness: a (2, 5, 5, 3) array with only two nested channel mappings
fails with the mapping-count error. -/
theorem c7_mapping_shape_mismatch_witness :
    build c7Input = .error .mappingCountMismatch :=
  (c7_mapping_shape_mismatch c7Input img0 rfl rfl (by decide)).2.2 rfl
    [[1], [2]] rfl (by decide) (by decide) (by decide)

/-- C8: under all earlier stages passing (source images, syntax, window,
mapping shape and count), a plane position list, supplied or derived, whose
length differs from the first axis of the normalized rank-4 array makes the
build fail with the plane-count error, before any frame is encoded (the
error result carries no frames). -/
theorem c8_plane_count_mismatch (inp : BuildInput) (img : SourceImage)
    (s4 : List Nat) (nested : List (List Mapping)) (sh : Option (List Mapping))
    (hsrc : checkSources inp.sourceImages = .ok img)
    (hts : checkTransferSupported inp.pixelArray.dtype.kind
      inp.transferSyntaxUid = .ok ())
    (hww : ¬ inp.windowWidth ≤ 0)
    (hmap : processMappings (normShape3 inp.pixelArray.shape) inp.mappings =
      .ok (s4, nested, sh))
    (hcnt : nested.length = s4.getD 3 0)
    (hpp : (chosenPlanePositions inp.planePositions
      inp.derivedPlanePositions).length ≠ s4.getD 0 0) :
    build inp = .error .planeCountMismatch := by
  have hcw : checkWindow inp.windowWidth = .ok () := by
    unfold checkWindow
    rw [if_neg hww]
  unfold build
  rw [hsrc, except_bind_ok, hts, except_bind_ok, hcw, except_bind_ok, hmap,
    except_bind_ok]
  have hcm : checkMappingCount nested s4 = .ok () := by
    unfold checkMappingCount
    rw [if_neg (by omega)]
  have hrp : resolvePlanePositions inp.planePositions
      inp.derivedPlanePositions (s4.getD 0 0) = .error .planeCountMismatch := by
    cases hca : inp.planePositions with
    | none =>
      rw [hca] at hpp
      simp only [chosenPlanePositions, Option.getD_none] at hpp
      have hdef : resolvePlanePositions none inp.derivedPlanePositions
          (s4.getD 0 0) =
          if inp.derivedPlanePositions.length ≠ s4.getD 0 0 then
            .error .planeCountMismatch
          else .ok inp.derivedPlanePositions := rfl
      rw [hdef, if_pos hpp]
    | some pp =>
      rw [hca] at hpp
      simp only [chosenPlanePositions, Option.getD_some] at hpp
      have hdef : resolvePlanePositions (some pp) inp.derivedPlanePositions
          (s4.getD 0 0) =
          if pp.length ≠ s4.getD 0 0 then .error .planeCountMismatch
          else .ok pp := rfl
      rw [hdef, if_pos hpp]
  rw [hcm, except_bind_ok, hrp, except_bind_error]

/-- C8 witness: a rank-3 array with two planes and a single supplied plane
position fails with the plane-count error. -/
theorem c8_plane_count_mismatch_witness :
    build c8Input = .error .planeCountMismatch :=
  c8_plane_count_mismatch c8Input img0 [2, 2, 2, 1] [[3]] (some [3]) rfl rfl
    (by decide) (by decide) (by decide) (by decide)

/-- C3: every valid build stores a rescale transform of intercept 2 ^ 15 for
signed-integer input and 0 otherwise, always with slope 1; and the native
encoding path (lines 744-751, the branch the sources of this claim name)
satisfies the signed round-trip: re-reading the serialized frame as unsigned
16-bit samples yields signedStoredU16 of each sample, and for every value of
the full representable signed 16-bit range the stored sample minus 2 ^ 15 is
the original value. -/
theorem c3_rescale_and_signed_roundtrip (inp : BuildInput) (doc : Document)
    (hok : build inp = .ok doc) :
    doc.sharedGroup.rescaleIntercept =
      (if inp.pixelArray.dtype.kind = .signed then 2 ^ 15 else 0) ∧
    doc.sharedGroup.rescaleSlope = 1 ∧
    (inp.pixelArray.dtype.kind = .signed →
      ∀ plane : List Int,
        decodeU16LE (encodeFrame false inp.frameCodec inp.pixelArray.dtype plane) =
          plane.map signedStoredU16) ∧
    (∀ v : Int, -(2 ^ 15) ≤ v → v < 2 ^ 15 →
      (signedStoredU16 v : Int) - 2 ^ 15 = v) := by
  obtain ⟨img, s4, nested, sh, pp, pdtAttr, hsrc, hts, hww, hmap, hcnt, hpp,
    hpdt, hdoc⟩ := build_ok_inv inp doc hok
  subst hdoc
  refine ⟨?_, ?_, ?_, ?_⟩
  · show (if inp.pixelArray.dtype.kind = .signed then (2 : Int) ^ 16 / 2 else 0) =
      (if inp.pixelArray.dtype.kind = .signed then 2 ^ 15 else 0)
    split_ifs <;> norm_num
  · rfl
  · intro hsigned plane
    rw [encodeFrame_native_signed inp.frameCodec inp.pixelArray.dtype hsigned
      plane]
    exact decodeU16LE_mapflatten_nil signedStoredU16 signedStoredU16_lt plane
  · intro v h0 h1
    have h15 : ((2 : Int) ^ 15) = 32768 := by norm_num
    rw [h15] at h0 h1 ⊢
    unfold signedStoredU16
    omega

/-- C3 witness: the concrete signed build c3Input has intercept 2 ^ 15 and
slope 1, and the sample -5 round-trips through the native encoding. -/
theorem c3_rescale_and_signed_roundtrip_witness :
    c3Doc.sharedGroup.rescaleIntercept = 2 ^ 15 ∧
    c3Doc.sharedGroup.rescaleSlope = 1 ∧
    decodeU16LE (encodeFrame false c3Input.frameCodec c3Input.pixelArray.dtype
      [-5]) = [signedStoredU16 (-5)] ∧
    (signedStoredU16 (-5) : Int) - 2 ^ 15 = -5 := by
  obtain ⟨h1, h2, h3, h4⟩ :=
    c3_rescale_and_signed_roundtrip c3Input c3Doc (by decide)
  refine ⟨?_, h2, ?_, h4 (-5) (by decide) (by decide)⟩
  · rw [h1]
    decide
  · rw [h3 (by decide) [-5]]
    rfl

/-- C4: for every valid native-mode build from an unsigned array (uint8 or
uint16, sample values in range), re-reading the concatenated pixel buffer as
unsigned 16-bit little-endian samples reproduces the original values of
every plane in frame order exactly (uint8 is widened to two bytes per
sample); and the concrete spec example, a uint8 array of shape (3, 4, 4, 1)
with three plane positions and one mapping, yields three frames and a buffer
of exactly 3 * 4 * 4 * 2 = 96 bytes. -/
theorem c4_native_unsigned_roundtrip (inp : BuildInput) (doc : Document)
    (hok : build inp = .ok doc)
    (hdt : inp.pixelArray.dtype = DType.uint8 ∨
      inp.pixelArray.dtype = DType.uint16)
    (henc : inp.transferSyntaxUid.isEncapsulated = false)
    (hwf : ∀ v ∈ inp.pixelArray.data, 0 ≤ v ∧ v < 65536) :
    decodeU16LE doc.pixelData =
      ((pairRange (arrN inp.pixelArray.shape) (arrM inp.pixelArray.shape)).map
        (fun ij => (planeSamples (normShape4 inp.pixelArray.shape)
          inp.pixelArray.data ij.1 ij.2).map Int.toNat)).flatten ∧
    ((build c4Input).toOption.map fun d => (d.numberOfFrames, d.pixelData.length)) =
      some (3, 96) := by
  refine ⟨?_, by decide⟩
  obtain ⟨img, s4, nested, sh, pp, pdtAttr, hsrc, hts, hww, hmap, hcnt, hpp,
    hpdt, hdoc⟩ := build_ok_inv inp doc hok
  obtain ⟨hs4, hnest⟩ := normShape4_of_processMappings _ _ _ _ _ hmap
  subst hs4
  subst hdoc
  have hfr : (assembleDocument inp (normShape4 inp.pixelArray.shape) nested sh
        pp pdtAttr).pixelData =
      if inp.transferSyntaxUid.isEncapsulated then
        inp.encapsulateFrames
          ((createFrameItems inp (normShape4 inp.pixelArray.shape) nested
            pp).map Prod.fst)
      else
        ((createFrameItems inp (normShape4 inp.pixelArray.shape) nested
          pp).map Prod.fst).flatten := rfl
  rw [hfr, if_neg (by simp [henc])]
  have hmapfr : ((createFrameItems inp (normShape4 inp.pixelArray.shape)
        nested pp).map Prod.fst) =
      (pairRange ((normShape4 inp.pixelArray.shape).getD 0 0)
        ((normShape4 inp.pixelArray.shape).getD 3 0)).map
        (fun ij => ((planeSamples (normShape4 inp.pixelArray.shape)
          inp.pixelArray.data ij.1 ij.2).map
            fun v => leBytes 2 (castU16 v)).flatten) := by
    unfold createFrameItems
    rw [List.map_map]
    apply List.map_congr_left
    intro ij _
    show encodeFrame inp.transferSyntaxUid.isEncapsulated inp.frameCodec
      inp.pixelArray.dtype (planeSamples (normShape4 inp.pixelArray.shape)
        inp.pixelArray.data ij.1 ij.2) = _
    rw [henc]
    exact encodeFrame_native_u16 inp.frameCodec inp.pixelArray.dtype hdt _
  rw [hmapfr]
  have hcomp : (pairRange ((normShape4 inp.pixelArray.shape).getD 0 0)
        ((normShape4 inp.pixelArray.shape).getD 3 0)).map
        (fun ij => ((planeSamples (normShape4 inp.pixelArray.shape)
          inp.pixelArray.data ij.1 ij.2).map
            fun v => leBytes 2 (castU16 v)).flatten) =
      ((pairRange ((normShape4 inp.pixelArray.shape).getD 0 0)
        ((normShape4 inp.pixelArray.shape).getD 3 0)).map
        (fun ij => planeSamples (normShape4 inp.pixelArray.shape)
          inp.pixelArray.data ij.1 ij.2)).map
        (fun p => (p.map fun v => leBytes 2 (castU16 v)).flatten) := by
    rw [List.map_map]
    rfl
  rw [hcomp, decodeU16LE_framesflatten castU16 castU16_lt, List.map_map]
  simp only [arrN, arrM]
  congr 1
  apply List.map_congr_left
  intro ij _
  show (planeSamples (normShape4 inp.pixelArray.shape)
      inp.pixelArray.data ij.1 ij.2).map castU16 = _
  apply List.map_congr_left
  intro v hv
  have hb := planeSamples_bound (normShape4 inp.pixelArray.shape)
    inp.pixelArray.data hwf ij.1 ij.2 v hv
  exact castU16_eq_toNat v hb.1 hb.2

/-- C4 witness: the uint8 (3, 4, 4, 1) example build round-trips through
its native pixel buffer. -/
theorem c4_native_unsigned_roundtrip_witness :
    decodeU16LE c4Doc.pixelData =
      ((pairRange (arrN c4Input.pixelArray.shape) (arrM c4Input.pixelArray.shape)).map
        (fun ij => (planeSamples (normShape4 c4Input.pixelArray.shape)
          c4Input.pixelArray.data ij.1 ij.2).map Int.toNat)).flatten :=
  (c4_native_unsigned_roundtrip c4Input c4Doc (by decide) (Or.inl rfl) rfl
    (by decide)).1

/-- C1: every valid build has n plane positions and m channel mappings with
the array normalized to rank-4 shape (n, r, c, m); the total frame count is
n * m, and both the encoded frame list and the per-frame functional-group
sequence are position-major, channel-minor: the record at flat index
k = i * m + j holds the encoded plane (i, j), references plane position i
with the dimension index values of position i, and carries the channel-j
mapping exactly in the multi-channel case, for every i below n and j below
m. -/
theorem c1_frame_count_and_order (inp : BuildInput) (doc : Document)
    (hok : build inp = .ok doc) :
    (chosenPlanePositions inp.planePositions inp.derivedPlanePositions).length =
      arrN inp.pixelArray.shape ∧
    (normalizeMappings inp.mappings).length = arrM inp.pixelArray.shape ∧
    doc.numberOfFrames = arrN inp.pixelArray.shape * arrM inp.pixelArray.shape ∧
    doc.frames.length = arrN inp.pixelArray.shape * arrM inp.pixelArray.shape ∧
    doc.perFrameGroups.length =
      arrN inp.pixelArray.shape * arrM inp.pixelArray.shape ∧
    (∀ i j, i < arrN inp.pixelArray.shape → j < arrM inp.pixelArray.shape →
      doc.frames.getD (i * arrM inp.pixelArray.shape + j) [] =
        encodeFrame inp.transferSyntaxUid.isEncapsulated inp.frameCodec
          inp.pixelArray.dtype
          (planeSamples (normShape4 inp.pixelArray.shape)
            inp.pixelArray.data i j) ∧
      (doc.perFrameGroups.getD (i * arrM inp.pixelArray.shape + j)
          default).planePosition =
        (chosenPlanePositions inp.planePositions
          inp.derivedPlanePositions).getD i 0 ∧
      (doc.perFrameGroups.getD (i * arrM inp.pixelArray.shape + j)
          default).dimensionIndexValues = inp.spatialIndexValues i ∧
      (doc.perFrameGroups.getD (i * arrM inp.pixelArray.shape + j)
          default).realWorldValueMapping =
        (if 1 < arrM inp.pixelArray.shape
         then some ((normalizeMappings inp.mappings).getD j [])
         else none)) := by
  obtain ⟨img, s4, nested, sh, pp, pdtAttr, hsrc, hts, hww, hmap, hcnt, hpp,
    hpdt, hdoc⟩ := build_ok_inv inp doc hok
  obtain ⟨hs4, hnest⟩ := normShape4_of_processMappings _ _ _ _ _ hmap
  obtain ⟨hppc, hppl⟩ := resolvePlanePositions_ok_inv _ _ _ _ hpp
  subst hs4
  subst hnest
  subst hppc
  subst hdoc
  have hlen : (createFrameItems inp (normShape4 inp.pixelArray.shape)
      (normalizeMappings inp.mappings)
      (chosenPlanePositions inp.planePositions
        inp.derivedPlanePositions)).length =
      arrN inp.pixelArray.shape * arrM inp.pixelArray.shape := by
    unfold createFrameItems
    rw [List.length_map, pairRange_length]
    rfl
  refine ⟨hppl, hcnt, ?_, ?_, ?_, ?_⟩
  · show ((createFrameItems inp (normShape4 inp.pixelArray.shape)
      (normalizeMappings inp.mappings)
      (chosenPlanePositions inp.planePositions
        inp.derivedPlanePositions)).map Prod.fst).length = _
    rw [List.length_map]
    exact hlen
  · show ((createFrameItems inp (normShape4 inp.pixelArray.shape)
      (normalizeMappings inp.mappings)
      (chosenPlanePositions inp.planePositions
        inp.derivedPlanePositions)).map Prod.fst).length = _
    rw [List.length_map]
    exact hlen
  · show ((createFrameItems inp (normShape4 inp.pixelArray.shape)
      (normalizeMappings inp.mappings)
      (chosenPlanePositions inp.planePositions
        inp.derivedPlanePositions)).map Prod.snd).length = _
    rw [List.length_map]
    exact hlen
  · intro i j hi hj
    simp only [arrN, arrM] at hi hj ⊢
    have hitem : (createFrameItems inp (normShape4 inp.pixelArray.shape)
        (normalizeMappings inp.mappings)
        (chosenPlanePositions inp.planePositions
          inp.derivedPlanePositions))[i * (normShape4 inp.pixelArray.shape).getD 3 0 + j]? =
        some (encodeFrame inp.transferSyntaxUid.isEncapsulated inp.frameCodec
            inp.pixelArray.dtype
            (planeSamples (normShape4 inp.pixelArray.shape)
              inp.pixelArray.data i j),
          { planePosition := (chosenPlanePositions inp.planePositions
              inp.derivedPlanePositions).getD i 0
            dimensionIndexValues := inp.spatialIndexValues i
            realWorldValueMapping :=
              if 1 < (normShape4 inp.pixelArray.shape).getD 3 0 then
                some ((normalizeMappings inp.mappings).getD j [])
              else none }) := by
      unfold createFrameItems
      rw [List.getElem?_map, pairRange_getElem? _ _ i j hi hj]
      rfl
    refine ⟨?_, ?_, ?_, ?_⟩
    · show ((createFrameItems inp (normShape4 inp.pixelArray.shape)
        (normalizeMappings inp.mappings)
        (chosenPlanePositions inp.planePositions
          inp.derivedPlanePositions)).map Prod.fst).getD _ [] = _
      rw [List.getD_eq_getElem?_getD, List.getElem?_map, hitem]
      rfl
    · show (((createFrameItems inp (normShape4 inp.pixelArray.shape)
        (normalizeMappings inp.mappings)
        (chosenPlanePositions inp.planePositions
          inp.derivedPlanePositions)).map Prod.snd).getD _
          default).planePosition = _
      rw [List.getD_eq_getElem?_getD, List.getElem?_map, hitem]
      rfl
    · show (((createFrameItems inp (normShape4 inp.pixelArray.shape)
        (normalizeMappings inp.mappings)
        (chosenPlanePositions inp.planePositions
          inp.derivedPlanePositions)).map Prod.snd).getD _
          default).dimensionIndexValues = _
      rw [List.getD_eq_getElem?_getD, List.getElem?_map, hitem]
      rfl
    · show (((createFrameItems inp (normShape4 inp.pixelArray.shape)
        (normalizeMappings inp.mappings)
        (chosenPlanePositions inp.planePositions
          inp.derivedPlanePositions)).map Prod.snd).getD _
          default).realWorldValueMapping = _
      rw [List.getD_eq_getElem?_getD, List.getElem?_map, hitem]
      rfl

/-- C1 witness: the concrete two-position two-channel build c1Input has four
frames and its record at flat index 2 = 1 * 2 + 0 references plane position
1 (value 20) and the channel-0 mapping. -/
theorem c1_frame_count_and_order_witness :
    c1Doc.numberOfFrames = 4 ∧
    (c1Doc.perFrameGroups.getD 2 default).planePosition = 20 ∧
    (c1Doc.perFrameGroups.getD 2 default).realWorldValueMapping = some [1] := by
  obtain ⟨h1, h2, h3, h4, h5, h6⟩ :=
    c1_frame_count_and_order c1Input c1Doc (by decide)
  obtain ⟨hf, hp, hd, hm⟩ := h6 1 0 (by decide) (by decide)
  have hidx : 1 * arrM c1Input.pixelArray.shape + 0 = 2 := by decide
  rw [hidx] at hp hm
  refine ⟨?_, ?_, ?_⟩
  · rw [h3]
    decide
  · rw [hp]
    decide
  · rw [hm]
    decide

end HdPm
